import Mathlib

/-!
Shallow embedding of the protractor-base-dsl wait/expectation layer.

Sources embedded:
  src/app/common/wait-condition.js   (WaitCondition)
  src/app/common/expectation.js      (Expectation)
  src/unnamed/part_000               (Action)

The repository imports `condition.js`, `element-util.js` and `action-util.js`,
which are part of the repository but not present under src/; those pieces are
modelled from the spec (section 2: Condition is a family of pure predicate
constructors, ElementUtil exposes the locate-element primitive, ActionUtil
wraps Wait Engine results into assertions).  The selenium-webdriver wait engine
(`browser.wait` with a `webdriver.Condition`) is the external collaborator the
spec describes: it polls a condition against live browser state with a timeout
and fails with the condition message on expiry; we embed it as a fuel-bounded
poll over a trace of browser states, one state per poll tick.

JavaScript-value conventions: a possibly-undefined numeric global is
`Option Nat` (none = undefined); a missing function argument is the
`none` variant of the corresponding type; `a || b` on the timeout is
`jsOr`, with 0 and undefined falsy.
-/

/-- A DOM element as the automation client reports it: visibility, enabled
state and text.  Presence is represented by the element being in the list a
locator resolves to. -/
structure Element where
  displayed : Bool
  enabled : Bool
  text : String
deriving DecidableEq

/-- One snapshot of live browser state: for each CSS selector string, the list
of matching elements (in document order). -/
structure BrowserState where
  elements : String → List Element

/-- Modelled from the spec: an element finder produced by the locate-element
primitive of the automation client.  `byCss` is `element(By.css(s))`;
`filteredFirst` is `element.all(By.css(css)).filter(text equals expected).first()`
as built by WaitCondition.presentWithText; `fromUndefined` is the finder obtained
when the selector argument is the JavaScript value `undefined`. -/
inductive ElementFinder where
  | byCss (s : String)
  | filteredFirst (css : String) (expectedText : Option String)
  | fromUndefined
deriving DecidableEq

/-- A selector argument in this DSL: a CSS selector string, an already-built
element finder, or the JavaScript value `undefined` (a missing argument). -/
inductive JSSelector where
  | str (s : String)
  | fnd (f : ElementFinder)
  | undefinedArg
deriving DecidableEq

/-- JavaScript `R.equals(actualText, expectedText)` where `expectedText` may be
`undefined`: a string never equals `undefined`. -/
def jsTextEq (actual : String) (expected : Option String) : Bool :=
  match expected with
  | some t => actual == t
  | none => false

/-- String interpolation of a possibly-undefined string: `undefined` prints as
the literal text "undefined". -/
def jsShowOpt (v : Option String) : String :=
  match v with
  | some s => s
  | none => "undefined"

/-- All elements an element finder resolves to in a given browser state. -/
def ElementFinder.resolveAll (f : ElementFinder) (st : BrowserState) : List Element :=
  match f with
  | .byCss s => st.elements s
  | .filteredFirst css expectedText =>
      (st.elements css).filter (fun e => jsTextEq e.text expectedText)
  | .fromUndefined => []

/-- The single element an element finder denotes in a given browser state
(the first match), or none when nothing matches. -/
def ElementFinder.resolveOpt (f : ElementFinder) (st : BrowserState) : Option Element :=
  (f.resolveAll st).head?

/-- Modelled from the spec: the locator description of an element finder, as
used in wait error messages.  Follows the printed form of a protractor
locator. -/
def ElementFinder.locator (f : ElementFinder) : String :=
  match f with
  | .byCss s => "By(css selector, " ++ s ++ ")"
  | .filteredFirst css expectedText =>
      "By(css selector, " ++ css ++ ").filter(text equals "
        ++ jsShowOpt expectedText ++ ").first()"
  | .fromUndefined => "By(css selector, undefined)"

/-- Modelled from the spec: `ElementUtil.elementFinder`, the locate-element
primitive — a CSS string becomes a finder for it, a finder is returned as is,
and a missing (undefined) selector yields the undefined finder. -/
def ElementUtil.elementFinder (selector : JSSelector) : ElementFinder :=
  match selector with
  | .str s => .byCss s
  | .fnd f => f
  | .undefinedArg => .fromUndefined

/-- A condition in this codebase: a predicate applied to an element finder,
evaluated against the current browser state on each poll. -/
def Cond : Type := ElementFinder → BrowserState → Bool

/-- Modelled from the spec: Condition.present — the located element is present
in the DOM. -/
def Condition.present : Cond := fun f st => (f.resolveOpt st).isSome

/-- Modelled from the spec: Condition.displayed — the located element is
present and visible. -/
def Condition.displayed : Cond := fun f st =>
  match f.resolveOpt st with
  | some e => e.displayed
  | none => false

/-- Modelled from the spec: Condition.enabled — the located element is present
and enabled. -/
def Condition.enabled : Cond := fun f st =>
  match f.resolveOpt st with
  | some e => e.enabled
  | none => false

/-- Modelled from the spec: Condition.textEquals — the located element has
exactly the given text. -/
def Condition.textEquals (text : String) : Cond := fun f st =>
  match f.resolveOpt st with
  | some e => e.text == text
  | none => false

/-- Whether the first list is an initial segment of the second. -/
def startsWithList : List Char → List Char → Bool
  | [], _ => true
  | _ :: _, [] => false
  | p :: ps, c :: cs => (p == c) && startsWithList ps cs

/-- Whether `pat` occurs as a contiguous chunk of the second list (JavaScript
`s.indexOf(pat) > -1`). -/
def hasChunk (pat : List Char) : List Char → Bool
  | [] => pat.isEmpty
  | c :: cs => startsWithList pat (c :: cs) || hasChunk pat cs

/-- Modelled from the spec: Condition.textContains — the located element text
contains the given chunk. -/
def Condition.textContains (text : String) : Cond := fun f st =>
  match f.resolveOpt st with
  | some e => hasChunk text.data e.text.data
  | none => false

/-- Modelled from the spec: Condition.not — pointwise boolean negation of a
condition. -/
def Condition.not (c : Cond) : Cond := fun f st => !(c f st)

/-- Modelled from the spec: Condition.count — the number of elements matching
the given selector equals the expected count.  It closes over the selector it
was built from and ignores the finder the wait engine hands it. -/
def Condition.count (selector : JSSelector) (expectedCount : Nat) : Cond :=
  fun _ st => ((ElementUtil.elementFinder selector).resolveAll st).length == expectedCount

/-- A selenium-webdriver Condition: an error message and a predicate on browser
state (external collaborator). -/
structure WdCondition where
  message : String
  fn : BrowserState → Bool

/-- Bounded linear search: the first tick `t` in `[start, start+fuel)` with
`fn t = true`, or none. -/
def pollLoop (fn : Nat → Bool) : Nat → Nat → Option Nat
  | _, 0 => none
  | t, fuel + 1 => if fn t then some t else pollLoop fn (t + 1) fuel

/-- The external wait engine `browser.wait(cond, timeout)`, embedded over a
trace of browser states (one per poll tick): resolves with the first tick
before the timeout at which the condition holds, otherwise rejects with the
condition message. -/
def browserWait (cond : WdCondition) (timeout : Nat) (trace : Nat → BrowserState) :
    Except String Nat :=
  match pollLoop (fun t => cond.fn (trace t)) 0 timeout with
  | some t => .ok t
  | none => .error cond.message

/-- The timeout `WaitCondition.check` hands to `browser.wait`:
`global.defaultExpectationTimeout || 10000` — the global when truthy
(defined and nonzero), 10000 otherwise. -/
def WaitCondition.checkTimeout (g : Option Nat) : Nat :=
  match g with
  | some n => if n == 0 then 10000 else n
  | none => 10000

/-- WaitCondition.check (src/app/common/wait-condition.js, lines 21-26):
builds a finder thunk from the selector, an error message from the message and
the finder locator, wraps the condition applied to a fresh finder into a
webdriver Condition, and waits on it with the default timeout. -/
def WaitCondition.check (message : String) (condition : Cond) (selector : JSSelector)
    (g : Option Nat) (trace : Nat → BrowserState) : Except String Nat :=
  let finder := fun (_ : Unit) => ElementUtil.elementFinder selector
  let errorMessage := message ++ ". Selector: " ++ (finder ()).locator
  let cond : WdCondition := ⟨errorMessage, fun st => condition (finder ()) st⟩
  browserWait cond (WaitCondition.checkTimeout g) trace

/-- WaitCondition.count (lines 45-48): waits on Condition.count.  The source
calls check with only two arguments, so the selector parameter of check is the
JavaScript value undefined. -/
def WaitCondition.count (selector : JSSelector) (expectedCount : Nat)
    (g : Option Nat) (trace : Nat → BrowserState) : Except String Nat :=
  let condition := Condition.count selector expectedCount
  WaitCondition.check
    ("for element\x27s count to be \x27" ++ toString expectedCount ++ "\x27")
    condition JSSelector.undefinedArg g trace

/-- WaitCondition.disabled (lines 55-57). -/
def WaitCondition.disabled (selector : JSSelector)
    (g : Option Nat) (trace : Nat → BrowserState) : Except String Nat :=
  WaitCondition.check "For element to be disabled"
    (Condition.not Condition.enabled) selector g trace

/-- WaitCondition.displayed (lines 64-66). -/
def WaitCondition.displayed (selector : JSSelector)
    (g : Option Nat) (trace : Nat → BrowserState) : Except String Nat :=
  WaitCondition.check "For element to be displayed" Condition.displayed selector g trace

/-- WaitCondition.enabled (lines 73-75). -/
def WaitCondition.enabled (selector : JSSelector)
    (g : Option Nat) (trace : Nat → BrowserState) : Except String Nat :=
  WaitCondition.check "For element to be enabled" Condition.enabled selector g trace

/-- WaitCondition.notDisplayed (lines 82-85). -/
def WaitCondition.notDisplayed (selector : JSSelector)
    (g : Option Nat) (trace : Nat → BrowserState) : Except String Nat :=
  let condition := Condition.not Condition.displayed
  WaitCondition.check "For element to be displayed" condition selector g trace

/-- WaitCondition.notPresent (lines 92-95). -/
def WaitCondition.notPresent (selector : JSSelector)
    (g : Option Nat) (trace : Nat → BrowserState) : Except String Nat :=
  let condition := Condition.not Condition.present
  WaitCondition.check "For element to be absent" condition selector g trace

/-- WaitCondition.present (lines 102-104). -/
def WaitCondition.present (selector : JSSelector)
    (g : Option Nat) (trace : Nat → BrowserState) : Except String Nat :=
  WaitCondition.check "For element to be present" Condition.present selector g trace

/-- WaitCondition.presentWithText (lines 112-120): builds the finder for the
first element matching the CSS selector whose text equals `expectedText`, then
waits for that finder to be present.  `expectedText : Option String` because
its caller in expectation.js omits the argument (undefined). -/
def WaitCondition.presentWithText (selector : String) (expectedText : Option String)
    (g : Option Nat) (trace : Nat → BrowserState) : Except String Nat :=
  let foundElement := ElementFinder.filteredFirst selector expectedText
  let msg := "For element having text " ++ jsShowOpt expectedText ++ " to be present"
  WaitCondition.check msg Condition.present (JSSelector.fnd foundElement) g trace

/-- WaitCondition.textContains (lines 128-135).  The message is a multi-line
template literal, reproduced with its literal newlines and indentation. -/
def WaitCondition.textContains (selector : JSSelector) (text : String)
    (g : Option Nat) (trace : Nat → BrowserState) : Except String Nat :=
  let condition := Condition.textContains text
  WaitCondition.check
    ("\n    for\n    element\n    \x27s text to contain \x27" ++ text ++ "\n    \x27")
    condition selector g trace

/-- WaitCondition.textEquals (lines 143-146). -/
def WaitCondition.textEquals (selector : JSSelector) (text : String)
    (g : Option Nat) (trace : Nat → BrowserState) : Except String Nat :=
  let condition := Condition.textEquals text
  WaitCondition.check ("for element\x27s text to be \x27" ++ text ++ "\x27")
    condition selector g trace

/-- The outcome of an expectation: an assertion wrapped around the result of
the executed wait. -/
inductive Assertion (α : Type) where
  | expectExecuted : Except String α → Assertion α

/-- Modelled from the spec: `ActionUtil.expectExecutedAction` — wraps the
result of the executed wait into an assertion and nothing else. -/
def ActionUtil.expectExecutedAction {α : Type} (action : Unit → Except String α) :
    Assertion α :=
  Assertion.expectExecuted (action ())

/-- Expectation.displayed (src/app/common/expectation.js, lines 202-204). -/
def Expectation.displayed (selector : JSSelector)
    (g : Option Nat) (trace : Nat → BrowserState) : Assertion Nat :=
  ActionUtil.expectExecutedAction (fun _ => WaitCondition.displayed selector g trace)

/-- Expectation.enabled (lines 221-223). -/
def Expectation.enabled (selector : JSSelector)
    (g : Option Nat) (trace : Nat → BrowserState) : Assertion Nat :=
  ActionUtil.expectExecutedAction (fun _ => WaitCondition.enabled selector g trace)

/-- Expectation.present (lines 317-319). -/
def Expectation.present (selector : JSSelector)
    (g : Option Nat) (trace : Nat → BrowserState) : Assertion Nat :=
  ActionUtil.expectExecutedAction (fun _ => WaitCondition.present selector g trace)

/-- Expectation.presentWithText (lines 326-328): forwards only the selector, so
the expectedText parameter of WaitCondition.presentWithText is undefined. -/
def Expectation.presentWithText (selector : String)
    (g : Option Nat) (trace : Nat → BrowserState) : Assertion Nat :=
  ActionUtil.expectExecutedAction
    (fun _ => WaitCondition.presentWithText selector none g trace)

/-- Expectation.textContains (lines 346-348). -/
def Expectation.textContains (selector : JSSelector) (text : String)
    (g : Option Nat) (trace : Nat → BrowserState) : Assertion Nat :=
  ActionUtil.expectExecutedAction (fun _ => WaitCondition.textContains selector text g trace)

/-- Expectation.textEquals (lines 356-358). -/
def Expectation.textEquals (selector : JSSelector) (text : String)
    (g : Option Nat) (trace : Nat → BrowserState) : Assertion Nat :=
  ActionUtil.expectExecutedAction (fun _ => WaitCondition.textEquals selector text g trace)

/-- The timeout argument Expectation.condition (lines 146-150) passes to
`browser.wait`: the raw global, with no fallback applied. -/
def Expectation.conditionTimeoutArg (g : Option Nat) : Option Nat := g

/-- JavaScript `parseInt(s, 10)`: optional sign, then leading decimal digits;
NaN (none) when no digit is found. -/
def parseIntJS (s : String) : Option Int :=
  let core : List Char → Option Nat := fun cs =>
    let digits := cs.takeWhile Char.isDigit
    if digits.isEmpty then none
    else some (digits.foldl (fun acc c => acc * 10 + (c.toNat - 48)) 0)
  match s.data with
  | '-' :: rest => (core rest).map (fun n => -(n : Int))
  | '+' :: rest => (core rest).map (fun n => (n : Int))
  | cs => (core cs).map (fun n => (n : Int))

/-- The attribute-value predicate of Expectation.attributeValueNotMoreThan
(lines 117-120): `Math.abs(parseInt(actualText, 10) - maxValue) <= 1`,
false when the parse yields NaN. -/
def Expectation.attributeValueNotMoreThanPred (maxValue : Int) (actualText : String) : Bool :=
  match parseIntJS actualText with
  | some v => (v - maxValue).natAbs ≤ 1
  | none => false

/-- One step of the serialized control flow issued by the Action DSL. -/
inductive UIEvent where
  | waitClickable (s : JSSelector)
  | clickOn (s : JSSelector)
  | focusOn (s : JSSelector)
deriving DecidableEq

/-- Event-trace view of Expectation.clickable (expectation.js lines 136-138):
it enqueues the clickable wait on the control flow. -/
def ActionTrace.clickableExpectation (selector : JSSelector) (log : List UIEvent) :
    List UIEvent :=
  log ++ [UIEvent.waitClickable selector]

/-- Event-trace view of `ElementUtil.elementFinder(selector).click()` wrapped
in expectExecutedAction: it enqueues the click. -/
def ActionTrace.clickElement (selector : JSSelector) (log : List UIEvent) : List UIEvent :=
  log ++ [UIEvent.clickOn selector]

/-- Event-trace view of `ElementUtil.elementFinder(selector).focus()` wrapped
in expectExecutedAction: it enqueues the focus. -/
def ActionTrace.focusElement (selector : JSSelector) (log : List UIEvent) : List UIEvent :=
  log ++ [UIEvent.focusOn selector]

/-- Action.click (src/unnamed/part_000, lines 17-20): first the clickable
expectation, then the click, in program order on the control flow. -/
def Action.click (selector : JSSelector) (log : List UIEvent) : List UIEvent :=
  ActionTrace.clickElement selector (ActionTrace.clickableExpectation selector log)

/-- Action.focus (src/unnamed/part_000, lines 53-56): first the clickable
expectation, then the focus. -/
def Action.focus (selector : JSSelector) (log : List UIEvent) : List UIEvent :=
  ActionTrace.focusElement selector (ActionTrace.clickableExpectation selector log)

/-- JavaScript `promise.then(onFulfilled, onRejected)` for handlers that never
throw: both branches produce a fulfilled promise holding the handler value. -/
def jsPromiseThen {α β : Type} (p : Except String α) (onFul : α → β) (onRej : String → β) :
    Except String β :=
  match p with
  | .ok a => .ok (onFul a)
  | .error e => .ok (onRej e)

/-- Modelled from the spec: `ActionUtil.execute` — thin glue that runs the
action and yields its promise unchanged. -/
def ActionUtil.execute {α : Type} (action : Unit → Except String α) : Except String α :=
  action ()

/-- Modelled from the spec: the assertion wrapper `expect(...)` around a
promise. -/
def expectAssertion {α : Type} (p : Except String α) : Assertion α :=
  Assertion.expectExecuted p

/-- Action.clickIfClickable (src/unnamed/part_000, lines 31-34):
`expect(ActionUtil.execute(() => finder.click().then(R.T, R.T)))`, where the
click outcome of the located element is the `clickOutcome` argument and `R.T`
is the constant-true function. -/
def Action.clickIfClickable (clickOutcome : Except String Unit) : Assertion Bool :=
  expectAssertion (ActionUtil.execute
    (fun _ => jsPromiseThen clickOutcome (fun _ => true) (fun _ => true)))

/-- A browser state with no elements at all. -/
def stEmpty : BrowserState := ⟨fun _ => []⟩

/-- A sample visible, enabled element with text "hello". -/
def elemHello : Element := ⟨true, true, "hello"⟩

/-- A browser state where the selector "foo" matches exactly two elements. -/
def stTwoFoo : BrowserState :=
  ⟨fun s => if s == "foo" then [elemHello, elemHello] else []⟩

/-- A browser state where the selector "foo" matches exactly three elements. -/
def stThreeFoo : BrowserState :=
  ⟨fun s => if s == "foo" then [elemHello, elemHello, elemHello] else []⟩

/- ------------------------------------------------------------------ -/
/- Theorems.                                                          -/
/- ------------------------------------------------------------------ -/

theorem pollLoop_eq_some_iff (fn : Nat → Bool) (fuel : Nat) :
    ∀ (s t : Nat), pollLoop fn s fuel = some t ↔
      (s ≤ t ∧ t < s + fuel ∧ fn t = true ∧ ∀ u, s ≤ u → u < t → fn u = false) := by
  induction fuel with
  | zero =>
    intro s t
    simp only [pollLoop]
    constructor
    · intro h; cases h
    · rintro ⟨h1, h2, -, -⟩; omega
  | succ n ih =>
    intro s t
    simp only [pollLoop]
    by_cases hfs : fn s = true
    · rw [if_pos hfs]
      constructor
      · intro h
        cases h
        exact ⟨Nat.le_refl s, by omega, hfs, fun u hu1 hu2 => by omega⟩
      · rintro ⟨h1, h2, h3, h4⟩
        have hts : t = s := by
          by_contra hne
          have hst : s < t := Nat.lt_of_le_of_ne h1 (Ne.symm hne)
          have hfalse := h4 s (Nat.le_refl s) hst
          rw [hfalse] at hfs
          cases hfs
        rw [hts]
    · have hfs' : fn s = false := by
        cases h : fn s
        · rfl
        · exact absurd h hfs
      rw [if_neg hfs, ih (s + 1) t]
      constructor
      · rintro ⟨h1, h2, h3, h4⟩
        refine ⟨by omega, by omega, h3, ?_⟩
        intro u hu1 hu2
        rcases Nat.eq_or_lt_of_le hu1 with heq | hlt
        · rw [← heq]; exact hfs'
        · exact h4 u hlt hu2
      · rintro ⟨h1, h2, h3, h4⟩
        have hst : s < t := by
          rcases Nat.eq_or_lt_of_le h1 with heq | hlt
          · rw [← heq] at h3; rw [h3] at hfs'; cases hfs'
          · exact hlt
        exact ⟨hst, by omega, h3, fun u hu1 hu2 => h4 u (by omega) hu2⟩

theorem pollLoop_eq_none_iff (fn : Nat → Bool) (fuel : Nat) :
    ∀ (s : Nat), pollLoop fn s fuel = none ↔
      ∀ t, s ≤ t → t < s + fuel → fn t = false := by
  induction fuel with
  | zero =>
    intro s
    simp only [pollLoop]
    constructor
    · intro _ t h1 h2; omega
    · intro _; trivial
  | succ n ih =>
    intro s
    simp only [pollLoop]
    by_cases hfs : fn s = true
    · rw [if_pos hfs]
      constructor
      · intro h; cases h
      · intro h
        have := h s (Nat.le_refl s) (by omega)
        rw [this] at hfs; cases hfs
    · have hfs' : fn s = false := by
        cases h : fn s
        · rfl
        · exact absurd h hfs
      rw [if_neg hfs, ih (s + 1)]
      constructor
      · intro h t h1 h2
        rcases Nat.eq_or_lt_of_le h1 with heq | hlt
        · rw [← heq]; exact hfs'
        · exact h t hlt (by omega)
      · intro h t h1 h2
        exact h t (by omega) (by omega)

theorem pollLoop_congr (fn₁ fn₂ : Nat → Bool) (fuel : Nat) :
    ∀ (s : Nat), (∀ t, s ≤ t → t < s + fuel → fn₁ t = fn₂ t) →
      pollLoop fn₁ s fuel = pollLoop fn₂ s fuel := by
  induction fuel with
  | zero => intro s _; rfl
  | succ n ih =>
    intro s hag
    simp only [pollLoop]
    have hs : fn₁ s = fn₂ s := hag s (Nat.le_refl s) (by omega)
    rw [hs]
    by_cases h2 : fn₂ s = true
    · rw [if_pos h2, if_pos h2]
    · rw [if_neg h2, if_neg h2]
      exact ih (s + 1) (fun t h1 hlt => hag t (by omega) (by omega))

theorem check_eq_match (message : String) (condition : Cond) (selector : JSSelector)
    (g : Option Nat) (trace : Nat → BrowserState) :
    WaitCondition.check message condition selector g trace =
      (match pollLoop (fun u => condition (ElementUtil.elementFinder selector) (trace u)) 0
          (WaitCondition.checkTimeout g) with
      | some t => Except.ok t
      | none => Except.error
          (message ++ ". Selector: " ++ (ElementUtil.elementFinder selector).locator)) :=
  rfl

theorem check_eq_ok_iff (message : String) (condition : Cond) (selector : JSSelector)
    (g : Option Nat) (trace : Nat → BrowserState) (t : Nat) :
    WaitCondition.check message condition selector g trace = Except.ok t ↔
      (t < WaitCondition.checkTimeout g ∧
        condition (ElementUtil.elementFinder selector) (trace t) = true ∧
        ∀ u, u < t → condition (ElementUtil.elementFinder selector) (trace u) = false) := by
  rw [check_eq_match]
  cases h : pollLoop (fun u => condition (ElementUtil.elementFinder selector) (trace u)) 0
      (WaitCondition.checkTimeout g) with
  | some v =>
    rw [pollLoop_eq_some_iff] at h
    simp only [Except.ok.injEq]
    constructor
    · rintro rfl
      exact ⟨by omega, h.2.2.1, fun u hu => h.2.2.2 u (by omega) hu⟩
    · rintro ⟨h1, h2, h3⟩
      rcases Nat.lt_trichotomy v t with hlt | heq | hgt
      · have := h3 v hlt
        rw [this] at h
        rcases h with ⟨-, -, hbad, -⟩
        cases hbad
      · exact heq
      · have := h.2.2.2 t (by omega) hgt
        rw [this] at h2
        cases h2
  | none =>
    rw [pollLoop_eq_none_iff] at h
    constructor
    · intro hbad; cases hbad
    · rintro ⟨h1, h2, -⟩
      have := h t (by omega) (by omega)
      rw [this] at h2
      cases h2

theorem check_eq_error_iff (message : String) (condition : Cond) (selector : JSSelector)
    (g : Option Nat) (trace : Nat → BrowserState) (e : String) :
    WaitCondition.check message condition selector g trace = Except.error e ↔
      (e = message ++ ". Selector: " ++ (ElementUtil.elementFinder selector).locator ∧
        ∀ t, t < WaitCondition.checkTimeout g →
          condition (ElementUtil.elementFinder selector) (trace t) = false) := by
  rw [check_eq_match]
  cases h : pollLoop (fun u => condition (ElementUtil.elementFinder selector) (trace u)) 0
      (WaitCondition.checkTimeout g) with
  | some v =>
    rw [pollLoop_eq_some_iff] at h
    constructor
    · intro hbad; cases hbad
    · rintro ⟨-, hall⟩
      have := hall v (by omega)
      rcases h with ⟨-, -, hbad, -⟩
      rw [this] at hbad
      cases hbad
  | none =>
    rw [pollLoop_eq_none_iff] at h
    simp only [Except.error.injEq]
    constructor
    · rintro rfl
      exact ⟨rfl, fun u hu => h u (by omega) (by omega)⟩
    · rintro ⟨rfl, -⟩
      rfl

/-- C1: for every call WaitCondition.check(message, condition, selector), if
the condition does not hold before the timeout elapses, the wait fails with a
descriptive error whose message is the supplied message followed by the
locator of the element resolved from the selector. -/
theorem c1_check_timeout_error_message (message : String) (condition : Cond)
    (selector : JSSelector) (g : Option Nat) (trace : Nat → BrowserState)
    (h : ∀ t, t < WaitCondition.checkTimeout g →
      condition (ElementUtil.elementFinder selector) (trace t) = false) :
    WaitCondition.check message condition selector g trace =
      Except.error (message ++ ". Selector: "
        ++ (ElementUtil.elementFinder selector).locator) := by
  rw [check_eq_error_iff]
  exact ⟨rfl, h⟩

theorem c1_check_timeout_error_message_witness :
    WaitCondition.check "for checkbox is selected" (fun _ _ => false)
        (JSSelector.str "a") (some 2) (fun _ => stEmpty) =
      Except.error ("for checkbox is selected" ++ ". Selector: "
        ++ (ElementUtil.elementFinder (JSSelector.str "a")).locator) :=
  c1_check_timeout_error_message "for checkbox is selected" (fun _ _ => false)
    (JSSelector.str "a") (some 2) (fun _ => stEmpty) (fun _ _ => rfl)

/-- C2: WaitCondition.check re-locates the element from the selector and
evaluates the condition on each poll: it resolves exactly at the first tick
before the timeout at which the condition, applied to the finder built from
the selector, holds of the state polled at that tick; it fails exactly when
the condition holds at no tick before the timeout; and its result depends only
on the states polled before the timeout, so polling never continues past it. -/
theorem c2_check_polls_each_tick_until_timeout (message : String) (condition : Cond)
    (selector : JSSelector) (g : Option Nat) (trace : Nat → BrowserState) :
    (∀ t, WaitCondition.check message condition selector g trace = Except.ok t ↔
      (t < WaitCondition.checkTimeout g ∧
        condition (ElementUtil.elementFinder selector) (trace t) = true ∧
        ∀ u, u < t → condition (ElementUtil.elementFinder selector) (trace u) = false)) ∧
    ((∃ e, WaitCondition.check message condition selector g trace = Except.error e) ↔
      (∀ t, t < WaitCondition.checkTimeout g →
        condition (ElementUtil.elementFinder selector) (trace t) = false)) ∧
    (∀ trace₂ : Nat → BrowserState,
      (∀ t, t < WaitCondition.checkTimeout g → trace t = trace₂ t) →
      WaitCondition.check message condition selector g trace =
        WaitCondition.check message condition selector g trace₂) := by
  refine ⟨fun t => check_eq_ok_iff message condition selector g trace t, ?_, ?_⟩
  · constructor
    · rintro ⟨e, he⟩
      exact ((check_eq_error_iff message condition selector g trace e).mp he).2
    · intro h
      exact ⟨_, (check_eq_error_iff message condition selector g trace _).mpr ⟨rfl, h⟩⟩
  · intro trace₂ hag
    rw [check_eq_match, check_eq_match]
    have hpoll := pollLoop_congr
      (fun u => condition (ElementUtil.elementFinder selector) (trace u))
      (fun u => condition (ElementUtil.elementFinder selector) (trace₂ u))
      (WaitCondition.checkTimeout g) 0
      (fun t _ hlt => by
        show condition (ElementUtil.elementFinder selector) (trace t) =
          condition (ElementUtil.elementFinder selector) (trace₂ t)
        rw [hag t (by omega)])
    rw [hpoll]

theorem c2_check_polls_each_tick_until_timeout_witness :
    WaitCondition.check "m" (fun _ _ => true) (JSSelector.str "a") (some 2)
        (fun _ => stEmpty) = Except.ok 0 :=
  ((c2_check_polls_each_tick_until_timeout "m" (fun _ _ => true) (JSSelector.str "a")
      (some 2) (fun _ => stEmpty)).1 0).mpr
    ⟨by decide, rfl, fun u hu => absurd hu (Nat.not_lt_zero u)⟩

/-- C4: Expectation.displayed, Expectation.enabled, Expectation.present,
Expectation.textEquals and Expectation.textContains each perform exactly the
wait of the WaitCondition method of the same name on the same arguments,
wrapping its result into an assertion and nothing else. -/
theorem c4_expectations_wrap_waits (selector : JSSelector) (text : String)
    (g : Option Nat) (trace : Nat → BrowserState) :
    Expectation.displayed selector g trace =
        Assertion.expectExecuted (WaitCondition.displayed selector g trace) ∧
    Expectation.enabled selector g trace =
        Assertion.expectExecuted (WaitCondition.enabled selector g trace) ∧
    Expectation.present selector g trace =
        Assertion.expectExecuted (WaitCondition.present selector g trace) ∧
    Expectation.textEquals selector text g trace =
        Assertion.expectExecuted (WaitCondition.textEquals selector text g trace) ∧
    Expectation.textContains selector text g trace =
        Assertion.expectExecuted (WaitCondition.textContains selector text g trace) :=
  ⟨rfl, rfl, rfl, rfl, rfl⟩

/-- C8: the timeout WaitCondition.check hands to the wait engine is the global
defaultExpectationTimeout when that value is truthy (defined and nonzero) and
10000 otherwise, while Expectation.condition passes the global through with no
fallback (in particular an undefined global stays undefined). -/
theorem c8_timeout_fallback (n : Nat) (g : Option Nat) (message : String)
    (condition : Cond) (selector : JSSelector) (trace : Nat → BrowserState) :
    WaitCondition.checkTimeout (some (n + 1)) = n + 1 ∧
    WaitCondition.checkTimeout (some 0) = 10000 ∧
    WaitCondition.checkTimeout none = 10000 ∧
    (WaitCondition.check message condition selector g trace =
      browserWait
        ⟨message ++ ". Selector: " ++ (ElementUtil.elementFinder selector).locator,
          fun st => condition (ElementUtil.elementFinder selector) st⟩
        (WaitCondition.checkTimeout g) trace) ∧
    Expectation.conditionTimeoutArg g = g ∧
    Expectation.conditionTimeoutArg none ≠ some 10000 := by
  refine ⟨?_, rfl, rfl, rfl, rfl, ?_⟩
  · simp [WaitCondition.checkTimeout]
  · intro h
    cases h

/-- C10: Action.clickIfClickable maps the click outcome to true on both
fulfilment and rejection, so the returned expectation is a fulfilled
assertion of true whether or not the click succeeded. -/
theorem c10_clickIfClickable_never_rejects (clickOutcome : Except String Unit) :
    Action.clickIfClickable clickOutcome = Assertion.expectExecuted (Except.ok true) := by
  cases clickOutcome <;> rfl

theorem not_cond_eq_true_iff (c : Cond) (f : ElementFinder) (st : BrowserState) :
    Condition.not c f st = true ↔ c f st = false := by
  cases h : c f st <;> simp [Condition.not, h]

theorem not_cond_eq_false_iff (c : Cond) (f : ElementFinder) (st : BrowserState) :
    Condition.not c f st = false ↔ c f st = true := by
  cases h : c f st <;> simp [Condition.not, h]

/-- C5: WaitCondition.disabled waits on Condition.not(Condition.enabled),
WaitCondition.notDisplayed on Condition.not(Condition.displayed) and
WaitCondition.notPresent on Condition.not(Condition.present); Condition.not is
the pointwise boolean negation, so each negative wait resolves exactly at the
first polled state at which the corresponding positive condition evaluates
falsy on the located element. -/
theorem c5_negative_waits_are_negations (selector : JSSelector) (g : Option Nat)
    (trace : Nat → BrowserState) :
    (WaitCondition.disabled selector g trace =
      WaitCondition.check "For element to be disabled"
        (Condition.not Condition.enabled) selector g trace) ∧
    (WaitCondition.notDisplayed selector g trace =
      WaitCondition.check "For element to be displayed"
        (Condition.not Condition.displayed) selector g trace) ∧
    (WaitCondition.notPresent selector g trace =
      WaitCondition.check "For element to be absent"
        (Condition.not Condition.present) selector g trace) ∧
    (∀ (c : Cond) (f : ElementFinder) (st : BrowserState),
      Condition.not c f st = !(c f st)) ∧
    (∀ t, WaitCondition.disabled selector g trace = Except.ok t ↔
      (t < WaitCondition.checkTimeout g ∧
        Condition.enabled (ElementUtil.elementFinder selector) (trace t) = false ∧
        ∀ u, u < t →
          Condition.enabled (ElementUtil.elementFinder selector) (trace u) = true)) ∧
    (∀ t, WaitCondition.notDisplayed selector g trace = Except.ok t ↔
      (t < WaitCondition.checkTimeout g ∧
        Condition.displayed (ElementUtil.elementFinder selector) (trace t) = false ∧
        ∀ u, u < t →
          Condition.displayed (ElementUtil.elementFinder selector) (trace u) = true)) ∧
    (∀ t, WaitCondition.notPresent selector g trace = Except.ok t ↔
      (t < WaitCondition.checkTimeout g ∧
        Condition.present (ElementUtil.elementFinder selector) (trace t) = false ∧
        ∀ u, u < t →
          Condition.present (ElementUtil.elementFinder selector) (trace u) = true)) := by
  refine ⟨rfl, rfl, rfl, fun c f st => rfl, ?_, ?_, ?_⟩
  · intro t
    have h : WaitCondition.disabled selector g trace =
        WaitCondition.check "For element to be disabled"
          (Condition.not Condition.enabled) selector g trace := rfl
    rw [h, check_eq_ok_iff]
    simp only [not_cond_eq_true_iff, not_cond_eq_false_iff]
  · intro t
    have h : WaitCondition.notDisplayed selector g trace =
        WaitCondition.check "For element to be displayed"
          (Condition.not Condition.displayed) selector g trace := rfl
    rw [h, check_eq_ok_iff]
    simp only [not_cond_eq_true_iff, not_cond_eq_false_iff]
  · intro t
    have h : WaitCondition.notPresent selector g trace =
        WaitCondition.check "For element to be absent"
          (Condition.not Condition.present) selector g trace := rfl
    rw [h, check_eq_ok_iff]
    simp only [not_cond_eq_true_iff, not_cond_eq_false_iff]

theorem c5_negative_waits_are_negations_witness :
    WaitCondition.notPresent (JSSelector.str "a") (some 2) (fun _ => stEmpty) =
      Except.ok 0 :=
  ((c5_negative_waits_are_negations (JSSelector.str "a") (some 2)
      (fun _ => stEmpty)).2.2.2.2.2.2 0).mpr
    ⟨by decide, rfl, fun u hu => absurd hu (Nat.not_lt_zero u)⟩

/-- C3 counterexample: WaitCondition.count called with selector "foo" and
expected count 3 times out with an error whose selector part is the locator of
an undefined selector; the selector "foo" it was called with occurs nowhere in
the message, refuting the claim that the expiry error describes the selector
the method was called with. -/
theorem c3_count_counterexample :
    WaitCondition.count (JSSelector.str "foo") 3 (some 2) (fun _ => stTwoFoo) =
      Except.error
        ("for element\x27s count to be \x273\x27. Selector: By(css selector, undefined)") ∧
    hasChunk "foo".data
      ("for element\x27s count to be \x273\x27. Selector: By(css selector, undefined)").data
      = false := by
  constructor
  · rfl
  · decide

/-- C3 (amended): WaitCondition.count(selector, expectedCount) resolves exactly
at the first polled state in which the number of elements matching the selector
equals expectedCount, and on expiry fails with an error describing the expected
count — but not the selector it was called with: count does not forward the
selector to check, so the selector slot of the message is the locator of an
undefined selector. -/
theorem c3_count_resolves_on_count_match (selector : JSSelector) (expectedCount : Nat)
    (g : Option Nat) (trace : Nat → BrowserState) :
    (∀ t, WaitCondition.count selector expectedCount g trace = Except.ok t ↔
      (t < WaitCondition.checkTimeout g ∧
        ((ElementUtil.elementFinder selector).resolveAll (trace t)).length = expectedCount ∧
        ∀ u, u < t →
          ((ElementUtil.elementFinder selector).resolveAll (trace u)).length
            ≠ expectedCount)) ∧
    ((∀ t, t < WaitCondition.checkTimeout g →
        ((ElementUtil.elementFinder selector).resolveAll (trace t)).length ≠ expectedCount) →
      WaitCondition.count selector expectedCount g trace =
        Except.error ("for element\x27s count to be \x27" ++ toString expectedCount
          ++ "\x27" ++ ". Selector: " ++ ElementFinder.fromUndefined.locator)) := by
  have hc : WaitCondition.count selector expectedCount g trace =
      WaitCondition.check
        ("for element\x27s count to be \x27" ++ toString expectedCount ++ "\x27")
        (Condition.count selector expectedCount) JSSelector.undefinedArg g trace := rfl
  constructor
  · intro t
    rw [hc, check_eq_ok_iff]
    simp only [Condition.count, beq_iff_eq, ne_eq]
    constructor
    · rintro ⟨h1, h2, h3⟩
      exact ⟨h1, h2, fun u hu => by simpa using h3 u hu⟩
    · rintro ⟨h1, h2, h3⟩
      refine ⟨h1, h2, fun u hu => ?_⟩
      simpa using h3 u hu
  · intro hall
    rw [hc, check_eq_error_iff]
    refine ⟨rfl, fun t ht => ?_⟩
    simpa [Condition.count] using hall t ht

theorem c3_count_resolves_on_count_match_witness :
    WaitCondition.count (JSSelector.str "foo") 3 (some 2) (fun _ => stThreeFoo) =
      Except.ok 0 :=
  ((c3_count_resolves_on_count_match (JSSelector.str "foo") 3 (some 2)
      (fun _ => stThreeFoo)).1 0).mpr
    ⟨by decide, rfl, fun u hu => absurd hu (Nat.not_lt_zero u)⟩

/-- C6: Action.click and Action.focus first enqueue the clickable expectation
on the control flow and only afterwards the click (respectively focus) on the
element resolved from the selector; the user action never precedes the wait in
the issued sequence. -/
theorem c6_click_focus_wait_before_action (selector : JSSelector) (log : List UIEvent) :
    Action.click selector log =
        log ++ [UIEvent.waitClickable selector, UIEvent.clickOn selector] ∧
    Action.focus selector log =
        log ++ [UIEvent.waitClickable selector, UIEvent.focusOn selector] ∧
    List.indexOf (UIEvent.waitClickable selector) (Action.click selector []) <
      List.indexOf (UIEvent.clickOn selector) (Action.click selector []) ∧
    List.indexOf (UIEvent.waitClickable selector) (Action.focus selector []) <
      List.indexOf (UIEvent.focusOn selector) (Action.focus selector []) := by
  refine ⟨?_, ?_, ?_, ?_⟩
  · simp [Action.click, ActionTrace.clickElement, ActionTrace.clickableExpectation]
  · simp [Action.focus, ActionTrace.focusElement, ActionTrace.clickableExpectation]
  · simp [Action.click, ActionTrace.clickElement, ActionTrace.clickableExpectation,
      List.indexOf_cons]
  · simp [Action.focus, ActionTrace.focusElement, ActionTrace.clickableExpectation,
      List.indexOf_cons]

theorem list_filter_jsTextEq_none (l : List Element) :
    l.filter (fun e => jsTextEq e.text none) = [] := by
  induction l with
  | nil => rfl
  | cons a as ih => simp [List.filter, jsTextEq, ih]

/-- C7: Expectation.presentWithText forwards only the selector, so the
expected text compared against each element is the JavaScript value undefined;
no element text ever equals it, the filtered finder resolves to nothing in
every browser state, and the expectation always times out with the
undefined-text error — it never asserts presence of an element with a
specified text. -/
theorem c7_presentWithText_never_succeeds (selector : String) (g : Option Nat)
    (trace : Nat → BrowserState) :
    Expectation.presentWithText selector g trace =
      Assertion.expectExecuted (Except.error
        ("For element having text undefined to be present" ++ ". Selector: "
          ++ (ElementFinder.filteredFirst selector none).locator)) := by
  have h : Expectation.presentWithText selector g trace =
      Assertion.expectExecuted (WaitCondition.check
        ("For element having text " ++ jsShowOpt none ++ " to be present")
        Condition.present (JSSelector.fnd (ElementFinder.filteredFirst selector none))
        g trace) := rfl
  rw [h]
  congr 1
  rw [check_eq_error_iff]
  refine ⟨rfl, fun t ht => ?_⟩
  show ((ElementFinder.filteredFirst selector none).resolveAll (trace t)).head?.isSome
    = false
  rw [show (ElementFinder.filteredFirst selector none).resolveAll (trace t) =
      ((trace t).elements selector).filter (fun e => jsTextEq e.text none) from rfl]
  rw [list_filter_jsTextEq_none]
  rfl

/-- C9: the attribute-value predicate of Expectation.attributeValueNotMoreThan
holds exactly when the parsed integer of the attribute value lies within 1 of
maxValue (between maxValue - 1 and maxValue + 1 inclusive); in particular a
parsed value of maxValue + 1 satisfies it and any parsed value below
maxValue - 1 does not. -/
theorem c9_attributeValueNotMoreThan_within_one (s : String) (maxValue v : Int)
    (hp : parseIntJS s = some v) :
    (Expectation.attributeValueNotMoreThanPred maxValue s = true ↔
      (maxValue - 1 ≤ v ∧ v ≤ maxValue + 1)) ∧
    (v = maxValue + 1 → Expectation.attributeValueNotMoreThanPred maxValue s = true) ∧
    (v < maxValue - 1 → Expectation.attributeValueNotMoreThanPred maxValue s = false) := by
  have hpred : Expectation.attributeValueNotMoreThanPred maxValue s =
      decide ((v - maxValue).natAbs ≤ 1) := by
    unfold Expectation.attributeValueNotMoreThanPred
    rw [hp]
  rw [hpred]
  refine ⟨?_, ?_, ?_⟩
  · rw [decide_eq_true_eq]
    omega
  · intro hv
    rw [decide_eq_true_eq]
    omega
  · intro hv
    rw [decide_eq_false_iff_not]
    omega

theorem c9_attributeValueNotMoreThan_within_one_witness :
    Expectation.attributeValueNotMoreThanPred 5 "6" = true ∧
    Expectation.attributeValueNotMoreThanPred 5 "3" = false :=
  ⟨(c9_attributeValueNotMoreThan_within_one "6" 5 6 (by decide)).2.1 (by decide),
    (c9_attributeValueNotMoreThan_within_one "3" 5 3 (by decide)).2.2 (by decide)⟩

theorem c8_timeout_fallback_witness :
    WaitCondition.checkTimeout (some 3) = 3 :=
  (c8_timeout_fallback 2 none "m" (fun _ _ => false) JSSelector.undefinedArg
    (fun _ => stEmpty)).1
